import Mathlib

/-!
Shallow embedding of the mongo-tg-backup service (src/main.py) together with
proofs of the specification claims about it.  Pure data transformations of the
Python source become Lean functions; the effectful parts (subprocess, HTTP,
Telegram transport, file system) are passed in explicitly as values describing
the answers of those collaborators, so every function is executable.
-/

/-- Response of the messaging transport to one send attempt: a rate limit
carrying a wait duration (pyrogram FloodWait), acceptance, or some other
fault. -/
inductive TransportResp where
  | floodWait (w : Nat)
  | ok
  | err (msg : String)
deriving DecidableEq

/-- Models one `app.send_message` attempt: the pyrogram call either succeeds,
raises FloodWait (a rate-limit exception), or raises some other exception.
Both exception kinds surface as `Except.error`. -/
def send_message_attempt : TransportResp → Except String Unit
  | .ok => Except.ok ()
  | .err m => Except.error m
  | .floodWait w => Except.error ("FloodWait " ++ toString w)

/-- `send_document_with_flood_wait` (src/main.py lines 195-203): retry loop
that sleeps `max w 1` seconds on every FloodWait and re-attempts the send.
The successive answers of the transport are given as a list; the result is
`none` when the loop is still retrying after all listed answers (the loop has
no retry cap), otherwise the recorded sleep durations together with the
outcome of the first non-rate-limit answer. -/
def send_document_with_flood_wait :
    List TransportResp → Option (List Nat × Except String Unit)
  | [] => none
  | .floodWait w :: rest =>
      (send_document_with_flood_wait rest).map (fun p => (max w 1 :: p.1, p.2))
  | .ok :: _ => some ([], Except.ok ())
  | .err m :: _ => some ([], Except.error m)

/-- Wait values of the leading run of rate-limit answers of the transport. -/
def leadingWaits : List TransportResp → List Nat
  | .floodWait w :: rest => w :: leadingWaits rest
  | _ => []

/-- Transport answers remaining after the leading run of rate-limit
answers. -/
def afterFlood : List TransportResp → List TransportResp
  | .floodWait _ :: rest => afterFlood rest
  | l => l

/-- `progress_callback` (lines 75-84).  The state is the global
`last_reported_progress`; the result is the new tracker value and whether a
log line was emitted.  `int((current / total) * 100)` on non-negative inputs
is the integer division `current * 100 / total`. -/
def progress_callback (current total : Nat) (last_reported_progress : Int) :
    Int × Bool :=
  if total = 0 then (last_reported_progress, false)
  else
    let percentage : Int := (current * 100 / total : Nat)
    if percentage % 10 = 0 ∧ last_reported_progress < percentage then
      (percentage, true)
    else
      (last_reported_progress, false)

/-- Python slice `s[:n]`: the first `n` characters of `s`. -/
def pyTake (s : String) (n : Nat) : String := String.mk (s.data.take n)

/-- The `details_short` computation of `send_failure_notification` (line 95):
the details are cut to the first 3500 characters, with an ellipsis appended,
whenever they are longer than 3500 characters. -/
def details_short (details : String) : String :=
  if details.length > 3500 then pyTake details 3500 ++ "..." else details

/-- Message composed by `send_failure_notification` (lines 91-96). -/
def failure_message (reason : String) (details : Option String) : String :=
  let base := "🔥 **Помилка створення бекапу MongoDB** 🔥\n\n" ++
    "**Причина:** " ++ reason ++ "\n"
  match details with
  | none => base
  | some d => base ++ "\n**Деталі:**\n```\n" ++ details_short d ++ "\n```"

/-- `send_failure_notification` (lines 87-103): composes the failure message
and sends it with a single `app.send_message` attempt inside try/except; any
exception (FloodWait included) is caught and logged.  The result is always
`Except.ok (message, swallowedError)` — never a propagated exception. -/
def send_failure_notification (t : TransportResp) (reason : String)
    (details : Option String) : Except String (String × Option String) :=
  match send_message_attempt t with
  | Except.ok _ => Except.ok (failure_message reason details, none)
  | Except.error e => Except.ok (failure_message reason details, some e)

/-- `send_to_telegram` (lines 166-193): wraps the flood-wait document send in
try/except.  `none` means the inner retry loop is still running; otherwise
the result records the swallowed transport error, if any — never a propagated
exception. -/
def send_to_telegram (resps : List TransportResp) : Option (Option String) :=
  match send_document_with_flood_wait resps with
  | none => none
  | some (_, Except.ok _) => some none
  | some (_, Except.error e) => some (some e)

/-- Outcome of one mongodump run inside the big try of `create_backup`: the
subprocess finished with an exit code, it timed out, or some other exception
was raised during the run. -/
inductive BackupOutcome where
  | exitCode (code : Int) (stderr : String)
  | timeout (detail : String)
  | fault (detail : String)
deriving DecidableEq

/-- Observable actions of one `create_backup` invocation. -/
inductive BEvent where
  | dumpStarted
  | failureNotified (reason : String) (details : String)
  | uploadDispatched
  | pruneRun
deriving DecidableEq

/-- `create_backup` (lines 106-163).  Input: the `backup_in_progress` flag at
entry and the outcome of the dump attempt; output: the flag after the
invocation together with the list of performed actions.  The entry guard
returns immediately when the flag is set; otherwise the flag is set, the dump
runs, and the `finally` block clears the flag on every path. -/
def create_backup (backup_in_progress : Bool) (out : BackupOutcome) :
    Bool × List BEvent :=
  if backup_in_progress then
    (backup_in_progress, [])
  else
    match out with
    | .exitCode code stderr =>
        if code ≠ 0 then
          (false, [BEvent.dumpStarted,
            BEvent.failureNotified
              ("Процес mongodump завершився з кодом помилки " ++
                toString code ++ ".") stderr])
        else
          (false, [BEvent.dumpStarted, BEvent.uploadDispatched, BEvent.pruneRun])
    | .timeout detail =>
        (false, [BEvent.dumpStarted,
          BEvent.failureNotified
            ("Таймаут виконання mongodump (перевищено 60 хвилин).") detail])
    | .fault detail =>
        (false, [BEvent.dumpStarted,
          BEvent.failureNotified
            ("Несподівана помилка під час створення бекапу.") detail])

/-- A file of the backup directory: its name and modification time. -/
structure BFile where
  name : String
  mtime : Nat
deriving DecidableEq

/-- Whether the pattern characters are a leading run of the text
characters. -/
def leadMatch : List Char → List Char → Bool
  | [], _ => true
  | _ :: _, [] => false
  | p :: ps, c :: cs => (p = c) && leadMatch ps cs

/-- The glob pattern `mongodb_backup_*.gz` used by `cleanup_old_backups`: the
name starts with the literal head of the pattern and ends with its literal
tail. -/
def matchesBackupPattern (f : BFile) : Bool :=
  leadMatch ("mongodb_backup_").data f.name.data &&
    leadMatch (".gz").data.reverse f.name.data.reverse

/-- Sort order used by `cleanup_old_backups`: modification time descending
(`key=lambda x: x.stat().st_mtime, reverse=True`). -/
def mtimeDesc (a b : BFile) : Prop := b.mtime ≤ a.mtime

instance : DecidableRel mtimeDesc := fun a b => Nat.decLe b.mtime a.mtime

/-- `cleanup_old_backups` (lines 205-220): list the files matching the
pattern, sort them by modification time descending, and delete everything
past the first `KEEP_LOCAL_BACKUPS` entries.  The result is the list of
deleted files, in deletion order.  Python `sorted` is a stable sort; the
model sorts with `List.insertionSort`, which agrees with it whenever the
modification times are pairwise distinct (the situation of every claim about
pruning). -/
def cleanup_old_backups (dir : List BFile) (keep_local_backups : Nat) :
    List BFile :=
  let backup_files := List.insertionSort mtimeDesc (dir.filter matchesBackupPattern)
  if backup_files.length > keep_local_backups then
    backup_files.drop keep_local_backups
  else
    []

/-- JSON values as produced by `json.loads`; objects keep the textual key
order of the payload. -/
inductive PyJson where
  | null
  | bool (b : Bool)
  | num (n : Int)
  | str (s : String)
  | arr (xs : List PyJson)
  | obj (fields : List (String × PyJson))

/-- Code-point lexicographic comparison of two character lists — the order
`sorted` and `json.dumps(..., sort_keys=True)` use for string keys. -/
def charsLE : List Char → List Char → Bool
  | [], _ => true
  | _ :: _, [] => false
  | a :: as, b :: bs => if a = b then charsLE as bs else decide (a < b)

/-- Key order used by `json.dumps(..., sort_keys=True)`. -/
def keyOrder (a b : String × PyJson) : Prop := charsLE a.1.data b.1.data = true

instance : DecidableRel keyOrder := fun a b =>
  instDecidableEqBool (charsLE a.1.data b.1.data) true

/-- Sort the fields of one object level by key.  The library sort is stable;
the model sorts with `List.insertionSort`, which agrees with it whenever the
keys of the object are pairwise distinct (always the case for a parsed JSON
object). -/
def sortFields (fs : List (String × PyJson)) : List (String × PyJson) :=
  List.insertionSort keyOrder fs

mutual

/-- Recursively sort every object level by key: the canonical value whose
rendering `normalize_json` returns. -/
def canonJson : PyJson → PyJson
  | .null => .null
  | .bool b => .bool b
  | .num n => .num n
  | .str s => .str s
  | .arr xs => .arr (canonArr xs)
  | .obj fs => .obj (sortFields (canonFields fs))

/-- Canonicalize every element of an array. -/
def canonArr : List PyJson → List PyJson
  | [] => []
  | x :: xs => canonJson x :: canonArr xs

/-- Canonicalize every value of an object field list, keeping the keys. -/
def canonFields : List (String × PyJson) → List (String × PyJson)
  | [] => []
  | (k, v) :: fs => (k, canonJson v) :: canonFields fs

end

mutual

/-- Text rendering of a JSON value; stands for the `json.dumps` output format
(key sorting is performed by `canonJson`; the precise whitespace of the
library rendering is not load-bearing for any claim). -/
def renderJson : PyJson → String
  | .null => "null"
  | .bool true => "true"
  | .bool false => "false"
  | .num n => toString n
  | .str s => "\"" ++ s ++ "\""
  | .arr xs => "[" ++ renderArr xs ++ "]"
  | .obj fs => "\x7b" ++ renderFields fs ++ "\x7d"

/-- Render the elements of an array, comma separated. -/
def renderArr : List PyJson → String
  | [] => ""
  | [x] => renderJson x
  | x :: xs => renderJson x ++ ", " ++ renderArr xs

/-- Render the fields of an object, comma separated. -/
def renderFields : List (String × PyJson) → String
  | [] => ""
  | [(k, v)] => "\"" ++ k ++ "\": " ++ renderJson v
  | (k, v) :: fs => "\"" ++ k ++ "\": " ++ renderJson v ++ ", " ++ renderFields fs

end

/-- `normalize_json` (lines 386-388): `json.dumps(data, ensure_ascii=False,
sort_keys=True, indent=2)` — a canonical text form with recursively sorted
keys. -/
def normalize_json (data : PyJson) : String := renderJson (canonJson data)

mutual

/-- Equality of JSON payloads as values, disregarding the key order of
objects: objects compare up to a permutation of their field lists (keys
pairwise distinct, as in any parsed JSON object), recursively in every
value. -/
inductive JsonEqUpToKeyOrder : PyJson → PyJson → Prop where
  | null : JsonEqUpToKeyOrder PyJson.null PyJson.null
  | bool (b : Bool) : JsonEqUpToKeyOrder (PyJson.bool b) (PyJson.bool b)
  | num (n : Int) : JsonEqUpToKeyOrder (PyJson.num n) (PyJson.num n)
  | str (s : String) : JsonEqUpToKeyOrder (PyJson.str s) (PyJson.str s)
  | arr {xs ys : List PyJson} : JsonListEq xs ys →
      JsonEqUpToKeyOrder (PyJson.arr xs) (PyJson.arr ys)
  | obj {fs gs hs : List (String × PyJson)} : (fs.map Prod.fst).Nodup →
      JsonFieldsEq fs gs → gs.Perm hs →
      JsonEqUpToKeyOrder (PyJson.obj fs) (PyJson.obj hs)

/-- Pointwise `JsonEqUpToKeyOrder` on arrays. -/
inductive JsonListEq : List PyJson → List PyJson → Prop where
  | nil : JsonListEq [] []
  | cons {x y : PyJson} {xs ys : List PyJson} : JsonEqUpToKeyOrder x y →
      JsonListEq xs ys → JsonListEq (x :: xs) (y :: ys)

/-- Pointwise `JsonEqUpToKeyOrder` on field lists with identical keys. -/
inductive JsonFieldsEq : List (String × PyJson) → List (String × PyJson) → Prop where
  | nil : JsonFieldsEq [] []
  | cons {k : String} {v w : PyJson} {fs gs : List (String × PyJson)} :
      JsonEqUpToKeyOrder v w → JsonFieldsEq fs gs →
      JsonFieldsEq ((k, v) :: fs) ((k, w) :: gs)

end

/-- `load_text_if_exists` (lines 391-394) over the modelled snapshot store:
`none` stands for a missing file. -/
def load_text_if_exists (stored : Option String) : String :=
  match stored with
  | some t => t
  | none => ""

/-- Notification produced by one endpoint iteration of
`check_pose_endpoints`. -/
inductive PoseNotice where
  | none
  | inline (text : String)
  | fileAttach (fileContent : String) (caption : String)
deriving DecidableEq

/-- Effect of one endpoint iteration: the snapshot content after the
iteration, whether the snapshot file was (re)written, and the notification
composed. -/
structure PoseStepResult where
  snapshot : String
  wroteSnapshot : Bool
  notice : PoseNotice
deriving DecidableEq

/-- The header of a change alert (line 445). -/
def poseHeader (name : String) : String :=
  "🔄 **Зміни в " ++ name ++ "**\n@Artemka1806 @redditmarketing"

/-- Lines 423-457 of `check_pose_endpoints` for one endpoint after a 200
response: normalize the payload, compare with the stored snapshot, and on a
difference persist the new text and compose either an inline diff message or
a diff-file attachment.  `diff` stands for `difflib.unified_diff` joined with
newlines. -/
def check_pose_step (diff : String → String → String) (name : String)
    (stored : Option String) (payload : PyJson) : PoseStepResult :=
  let normalized := normalize_json payload
  let previous := load_text_if_exists stored
  if previous = "" then
    { snapshot := normalized, wroteSnapshot := true, notice := PoseNotice.none }
  else if previous = normalized then
    { snapshot := previous, wroteSnapshot := false, notice := PoseNotice.none }
  else
    let diff_text := diff previous normalized
    let header := poseHeader name
    if diff_text.length > 3500 then
      { snapshot := normalized, wroteSnapshot := true,
        notice := PoseNotice.fileAttach diff_text header }
    else
      { snapshot := normalized, wroteSnapshot := true,
        notice := PoseNotice.inline (header ++ "\n\n```\n" ++ diff_text ++ "\n```") }

/-- Inputs of one endpoint iteration of `check_pose_endpoints`: the fetch
outcome (exception, or HTTP status with payload), the stored snapshot, and
the transport answers for the two kinds of notification send. -/
structure EndpointPoll where
  name : String
  fetch : Except String (Nat × PyJson)
  stored : Option String
  sendText : TransportResp
  sendDoc : List TransportResp

/-- One iteration of the `for name, url in endpoints.items()` loop
(lines 412-457).  Fetch failures and non-200 statuses are caught or skipped
(`Except.ok none`); the notification sends at lines 449-457 are not wrapped
in any try/except, so a transport fault there propagates as `Except.error`.
The outer `none` means the flood-wait loop of a document send is still
running. -/
def run_pose_endpoint (diff : String → String → String) (p : EndpointPoll) :
    Option (Except String (Option PoseStepResult)) :=
  match p.fetch with
  | Except.error _ => some (Except.ok none)
  | Except.ok (status, payload) =>
    if status ≠ 200 then some (Except.ok none)
    else
      let r := check_pose_step diff p.name p.stored payload
      match r.notice with
      | PoseNotice.none => some (Except.ok (some r))
      | PoseNotice.inline _ =>
          match send_message_attempt p.sendText with
          | Except.ok _ => some (Except.ok (some r))
          | Except.error e => some (Except.error e)
      | PoseNotice.fileAttach _ _ =>
          match send_document_with_flood_wait p.sendDoc with
          | none => none
          | some (_, Except.ok _) => some (Except.ok (some r))
          | some (_, Except.error e) => some (Except.error e)

/-- `check_pose_endpoints` (lines 397-457) over a list of endpoint polls: an
uncaught exception of one iteration aborts the loop and propagates out of the
job (`some (Except.error _)`); otherwise the per-endpoint results are
collected. -/
def check_pose_endpoints (diff : String → String → String) :
    List EndpointPoll → Option (Except String (List (String × Option PoseStepResult)))
  | [] => some (Except.ok [])
  | p :: ps =>
    match run_pose_endpoint diff p with
    | none => none
    | some (Except.error e) => some (Except.error e)
    | some (Except.ok r) =>
      match check_pose_endpoints diff ps with
      | none => none
      | some (Except.error e) => some (Except.error e)
      | some (Except.ok rs) => some (Except.ok ((p.name, r) :: rs))

/-- One element of the bot roster `items` (line 342): the optional fields the
loop reads via `item.get`. -/
structure BotItem where
  bot_token : Option String
  bot_username : Option String
  bot_number : Option String

/-- Per-bot action taken by the roster loop of `check_bots_status`
(lines 347-383). -/
inductive BotAction where
  | skippedNoToken
  | skippedNotInInventory
  | queryFault (e : String)
  | healthy
  | alerted (message : String) (swallowedSendError : Option String)
  | warned (status : Nat)
deriving DecidableEq

/-- The 401 alert text (lines 372-377). -/
def botAlertMessage (bot_username bot_number : String) : String :=
  "🚫 **Бот в бані або токен недійсний**\n\n" ++
    "**bot_username:** @" ++ bot_username ++ "\n" ++
    "**bot_number:** " ++ bot_number ++ "\n" ++
    "@Artemka1806 @redditmarketing"

/-- The body of the roster loop of `check_bots_status` for one item: `getMe`
is the outcome of the identity-check request (exception, or HTTP status) and
`alertSend` the transport answer used when a 401 alert is sent.  A bot whose
container name is absent from the inventory is skipped before `getMe` is
consulted. -/
def process_bot (container_names : List String) (item : BotItem)
    (getMe : Except String Nat) (alertSend : TransportResp) : BotAction :=
  match item.bot_token with
  | none => BotAction.skippedNoToken
  | some token =>
    if token = "" then BotAction.skippedNoToken
    else
      let bot_username := item.bot_username.getD ("unknown")
      let bot_number := item.bot_number.getD ("unknown")
      let container_name := "bot" ++ bot_number
      if container_name ∉ container_names then BotAction.skippedNotInInventory
      else
        match getMe with
        | Except.error e => BotAction.queryFault e
        | Except.ok status =>
          if status = 200 then BotAction.healthy
          else if status = 401 then
            match send_message_attempt alertSend with
            | Except.ok _ =>
                BotAction.alerted (botAlertMessage bot_username bot_number) none
            | Except.error e =>
                BotAction.alerted (botAlertMessage bot_username bot_number) (some e)
          else BotAction.warned status

/-! Helper lemmas. -/

theorem charsLE_total (x : List Char) : ∀ y, charsLE x y = true ∨ charsLE y x = true := by
  induction x with
  | nil => intro y; left; rfl
  | cons a as ih =>
    intro y
    cases y with
    | nil => right; rfl
    | cons b bs =>
      by_cases hab : a = b
      · subst hab
        simpa [charsLE] using ih bs
      · have hba : ¬ (b = a) := fun h => hab h.symm
        rcases lt_or_gt_of_ne hab with h | h
        · left; simp [charsLE, hab, h]
        · right; simp [charsLE, hba, h]

theorem charsLE_trans (x : List Char) :
    ∀ y z, charsLE x y = true → charsLE y z = true → charsLE x z = true := by
  induction x with
  | nil => intro y z _ _; rfl
  | cons a as ih =>
    intro y z h1 h2
    cases y with
    | nil => simp [charsLE] at h1
    | cons b bs =>
      cases z with
      | nil => simp [charsLE] at h2
      | cons c cs =>
        by_cases hab : a = b
        · subst hab
          simp only [charsLE, if_pos rfl] at h1
          by_cases hac : a = c
          · subst hac
            simp only [charsLE, if_pos rfl] at h2 ⊢
            exact ih bs cs h1 h2
          · simp only [charsLE, if_neg hac] at h2 ⊢
            exact h2
        · simp only [charsLE, if_neg hab, decide_eq_true_eq] at h1
          by_cases hbc : b = c
          · subst hbc
            simp only [charsLE, if_neg hab, decide_eq_true_eq]
            exact h1
          · simp only [charsLE, if_neg hbc, decide_eq_true_eq] at h2
            have hac : a < c := lt_trans h1 h2
            simp only [charsLE, if_neg (ne_of_lt hac), decide_eq_true_eq]
            exact hac

theorem charsLE_antisymm (x : List Char) :
    ∀ y, charsLE x y = true → charsLE y x = true → x = y := by
  induction x with
  | nil =>
    intro y h1 h2
    cases y with
    | nil => rfl
    | cons b bs => simp [charsLE] at h2
  | cons a as ih =>
    intro y h1 h2
    cases y with
    | nil => simp [charsLE] at h1
    | cons b bs =>
      by_cases hab : a = b
      · subst hab
        simp only [charsLE, if_pos rfl] at h1 h2
        rw [ih bs h1 h2]
      · have hba : ¬ (b = a) := fun h => hab h.symm
        simp only [charsLE, if_neg hab, decide_eq_true_eq] at h1
        simp only [charsLE, if_neg hba, decide_eq_true_eq] at h2
        exact absurd h1 (lt_asymm h2)

theorem pyTake_length_le (s : String) (n : Nat) : (pyTake s n).length ≤ n := by
  show (List.take n s.data).length ≤ n
  rw [List.length_take]
  exact min_le_left _ _

theorem pyTake_full (s : String) : pyTake s s.length = s := by
  unfold pyTake
  have h : s.length = s.data.length := rfl
  rw [h, List.take_length]

theorem string_length_pos_ne_empty (s : String) (h : 0 < s.length) : s ≠ "" := by
  intro he
  rw [he] at h
  exact absurd h (by decide)

/-! Claim theorems. -/

/-- C1: Single-flight guard and finalizer of `create_backup`: when the
in-progress flag is already set, the invocation returns at once with the flag
untouched and performs nothing at all (no dump, no notification, no prune —
the action list is empty); when the flag is clear at entry, the invocation
runs the dump and the `finally` block leaves the flag cleared on every exit
path — exit code zero or not, timeout, or unexpected fault — so at most one
execution of the backup job is active at any time. -/
theorem create_backup_single_flight (out : BackupOutcome) :
    create_backup true out = (true, []) ∧
    (create_backup false out).1 = false ∧
    BEvent.dumpStarted ∈ (create_backup false out).2 := by
  refine ⟨rfl, ?_, ?_⟩
  · cases out with
    | exitCode c st => by_cases h : c = 0 <;> simp [create_backup, h]
    | timeout d => rfl
    | fault d => rfl
  · cases out with
    | exitCode c st => by_cases h : c = 0 <;> simp [create_backup, h]
    | timeout d => simp [create_backup]
    | fault d => simp [create_backup]

/-- C10: the upload progress callback returns immediately when `total = 0`,
leaving the tracker untouched and logging nothing (so the percentage division
is never taken with a zero divisor), and for `total > 0` the
last-reported-percentage tracker never decreases. -/
theorem progress_callback_safety (current total : Nat) (last : Int) :
    progress_callback current 0 last = (last, false) ∧
    (0 < total → last ≤ (progress_callback current total last).1) := by
  refine ⟨rfl, fun ht => ?_⟩
  have h0 : ¬ (total = 0) := Nat.pos_iff_ne_zero.mp ht
  simp only [progress_callback, if_neg h0]
  split
  · next h => exact le_of_lt h.2
  · exact le_refl last

/-- Witness for C10 at a concrete input: a 50 percent callback on a fresh
transfer logs and raises the tracker from -1 to 50. -/
theorem progress_callback_safety_witness :
    progress_callback 50 100 (-1) = (50, true) ∧
    (-1 : Int) ≤ (progress_callback 50 100 (-1)).1 :=
  ⟨by decide, (progress_callback_safety 50 100 (-1)).2 (by decide)⟩

/-- C9: Baseline snapshot: with no previously persisted snapshot, a
successful (HTTP 200) poll persists the normalized payload as the baseline
and composes no alert, whatever the transport would answer — the first
observation is never treated as a change. -/
theorem pose_baseline_no_alert (diff : String → String → String)
    (name : String) (payload : PyJson) (sT : TransportResp)
    (sD : List TransportResp) :
    run_pose_endpoint diff ⟨name, Except.ok (200, payload), none, sT, sD⟩ =
      some (Except.ok (some ⟨normalize_json payload, true, PoseNotice.none⟩)) := rfl

/-- C2 counterexample: on a rate-limit signal during a text send the channel
neither sleeps nor retries: `send_failure_notification` swallows the
FloodWait like any other exception and returns even though the transport
never accepted the message, while the file-send path given the same
transport answers sleeps 5 seconds, retries, and succeeds. -/
theorem text_send_no_floodwait_retry :
    send_failure_notification (TransportResp.floodWait 5) ("r") none =
      Except.ok (failure_message ("r") none, some ("FloodWait 5")) ∧
    send_document_with_flood_wait [TransportResp.floodWait 5, TransportResp.ok] =
      some ([5], Except.ok ()) := ⟨rfl, rfl⟩

theorem details_short_eq (d : String) :
    details_short d =
      pyTake d (min d.length 3500) ++ (if d.length > 3500 then "..." else "") := by
  unfold details_short
  by_cases h : d.length > 3500
  · rw [if_pos h, if_pos h, min_eq_right (le_of_lt h)]
  · rw [if_neg h, if_neg h, min_eq_left (le_of_not_lt h), pyTake_full,
      String.append_empty]

/-- C7: a dump exiting with a non-zero code triggers exactly one failure
notification: the action trace holds a single dump start (so the dump is not
retried) followed by a single notification, the invocation completes with
the flag cleared (nothing is raised further), and the composed message
contains the exit code as well as the excerpt of the captured stderr — a
slice of at most 3500 characters. -/
theorem backup_failure_notification (code : Int) (stderr : String)
    (hc : code ≠ 0) :
    (create_backup false (BackupOutcome.exitCode code stderr)).2 =
      [BEvent.dumpStarted,
        BEvent.failureNotified
          ("Процес mongodump завершився з кодом помилки " ++ toString code ++ ".")
          stderr] ∧
    (create_backup false (BackupOutcome.exitCode code stderr)).1 = false ∧
    (∃ a b, failure_message
        ("Процес mongodump завершився з кодом помилки " ++ toString code ++ ".")
        (some stderr) = a ++ (toString code ++ b)) ∧
    (∃ a b, failure_message
        ("Процес mongodump завершився з кодом помилки " ++ toString code ++ ".")
        (some stderr) = a ++ (pyTake stderr (min stderr.length 3500) ++ b)) ∧
    (pyTake stderr (min stderr.length 3500)).length ≤ 3500 := by
  refine ⟨by simp [create_backup, hc], by simp [create_backup, hc], ?_, ?_, ?_⟩
  · refine ⟨"🔥 **Помилка створення бекапу MongoDB** 🔥\n\n" ++ "**Причина:** " ++
      "Процес mongodump завершився з кодом помилки ",
      "." ++ ("\n" ++ ("\n**Деталі:**\n```\n" ++ (details_short stderr ++ "\n```"))), ?_⟩
    simp only [failure_message, String.append_assoc]
  · refine ⟨"🔥 **Помилка створення бекапу MongoDB** 🔥\n\n" ++ ("**Причина:** " ++
      ("Процес mongodump завершився з кодом помилки " ++ (toString code ++ ("." ++
        ("\n" ++ "\n**Деталі:**\n```\n"))))),
      (if stderr.length > 3500 then "..." else "") ++ "\n```", ?_⟩
    simp only [failure_message, details_short_eq, String.append_assoc]
  · exact le_trans (pyTake_length_le _ _) (min_le_right _ _)

/-- Witness for C7 at exit code 1 with stderr given as disk full. -/
theorem backup_failure_notification_witness :
    (create_backup false (BackupOutcome.exitCode 1 ("disk full"))).2 =
      [BEvent.dumpStarted,
        BEvent.failureNotified
          ("Процес mongodump завершився з кодом помилки " ++ toString (1 : Int) ++ ".")
          ("disk full")] ∧
    (create_backup false (BackupOutcome.exitCode 1 ("disk full"))).1 = false ∧
    (∃ a b, failure_message
        ("Процес mongodump завершився з кодом помилки " ++ toString (1 : Int) ++ ".")
        (some ("disk full")) = a ++ (toString (1 : Int) ++ b)) ∧
    (∃ a b, failure_message
        ("Процес mongodump завершився з кодом помилки " ++ toString (1 : Int) ++ ".")
        (some ("disk full")) =
          a ++ (pyTake ("disk full") (min ("disk full").length 3500) ++ b)) ∧
    (pyTake ("disk full") (min ("disk full").length 3500)).length ≤ 3500 :=
  backup_failure_notification 1 ("disk full") (by decide)

/-- C2 (amended): the rate-limit retry loop applies to the file-send path:
`send_document_with_flood_wait` sleeps exactly `max w 1` seconds for each
leading rate-limit answer of wait `w` (every sleep is at least one second),
retries without any cap, and returns only once the transport accepts the
call or fails with a non-rate-limit fault.  Text sends are not retried: a
rate-limit fault during `send_failure_notification` is swallowed after a
single attempt, with no sleep. -/
theorem flood_wait_retry_file_sends_only (resps : List TransportResp)
    (reason : String) (details : Option String) (w : Nat) :
    send_document_with_flood_wait resps =
      (match afterFlood resps with
        | TransportResp.ok :: _ =>
            some ((leadingWaits resps).map (fun v => max v 1), Except.ok ())
        | TransportResp.err m :: _ =>
            some ((leadingWaits resps).map (fun v => max v 1), Except.error m)
        | _ => none) ∧
    ((leadingWaits resps).map (fun v => max v 1)).all
      (fun s => decide (1 ≤ s)) = true ∧
    send_failure_notification (TransportResp.floodWait w) reason details =
      Except.ok (failure_message reason details, some ("FloodWait " ++ toString w)) := by
  refine ⟨?_, ?_, rfl⟩
  · induction resps with
    | nil => rfl
    | cons h t ih =>
      cases h with
      | ok => rfl
      | err m => rfl
      | floodWait v =>
        simp only [send_document_with_flood_wait, afterFlood, leadingWaits,
          List.map_cons, ih]
        cases haf : afterFlood t with
        | nil => rfl
        | cons x rest => cases x <;> rfl
  · rw [List.all_eq_true]
    intro s hs
    rw [List.mem_map] at hs
    obtain ⟨v, hv, hveq⟩ := hs
    subst hveq
    exact decide_eq_true (Nat.le_max_right v 1)

theorem pairwise_strict_mtime {l : List BFile} (hs : l.Pairwise mtimeDesc)
    (hnd : (l.map BFile.mtime).Nodup) :
    l.Pairwise (fun a b => b.mtime < a.mtime) := by
  have hne : l.Pairwise (fun a b => BFile.mtime a ≠ BFile.mtime b) :=
    List.pairwise_map.mp hnd
  exact (hs.and hne).imp (fun h => lt_of_le_of_ne h.1 h.2.symm)

theorem prune_filter_facts {l1 l2 matching : List BFile}
    (hperm : (l1 ++ l2).Perm matching)
    (hstrict : (l1 ++ l2).Pairwise (fun a b => b.mtime < a.mtime))
    (hnodup : (l1 ++ l2).Nodup) :
    (matching.filter (fun f => decide (f ∉ l2))).length = l1.length ∧
    ∀ r ∈ matching.filter (fun f => decide (f ∉ l2)), ∀ d ∈ l2, d.mtime < r.mtime := by
  have hdisj : List.Disjoint l1 l2 := (List.nodup_append.mp hnodup).2.2
  have hcross := (List.pairwise_append.mp hstrict).2.2
  have hfl1 : l1.filter (fun f => decide (f ∉ l2)) = l1 :=
    List.filter_eq_self.mpr (fun a ha => decide_eq_true (fun h2 => hdisj ha h2))
  have hfl2 : l2.filter (fun f => decide (f ∉ l2)) = [] :=
    List.filter_eq_nil_iff.mpr (fun a ha hpa => (of_decide_eq_true hpa) ha)
  have hfil : (matching.filter (fun f => decide (f ∉ l2))).Perm l1 := by
    have h1 := hperm.filter (fun f => decide (f ∉ l2))
    rw [List.filter_append, hfl1, hfl2, List.append_nil] at h1
    exact h1.symm
  refine ⟨hfil.length_eq, fun r hr d hd => ?_⟩
  exact hcross r (hfil.mem_iff.mp hr) d hd

/-- C4: Retention pruning: among the files matching the backup pattern, with
pairwise distinct modification times, when the keep count is smaller than
their number N one prune deletes exactly the N - keep oldest matching files:
exactly keep matching files survive and every deleted file is strictly older
than every surviving one; when N ≤ keep nothing is deleted. -/
theorem cleanup_keeps_k_most_recent (dir : List BFile) (keep : Nat)
    (hnd : ((dir.filter matchesBackupPattern).map BFile.mtime).Nodup) :
    (keep < (dir.filter matchesBackupPattern).length →
      (cleanup_old_backups dir keep).length =
        (dir.filter matchesBackupPattern).length - keep ∧
      ((dir.filter matchesBackupPattern).filter
          (fun f => decide (f ∉ cleanup_old_backups dir keep))).length = keep ∧
      ∀ r ∈ (dir.filter matchesBackupPattern).filter
          (fun f => decide (f ∉ cleanup_old_backups dir keep)),
        ∀ d ∈ cleanup_old_backups dir keep, d.mtime < r.mtime) ∧
    ((dir.filter matchesBackupPattern).length ≤ keep →
      cleanup_old_backups dir keep = []) := by
  haveI hTot : IsTotal BFile mtimeDesc := ⟨fun a b => Nat.le_total b.mtime a.mtime⟩
  haveI hTr : IsTrans BFile mtimeDesc := ⟨fun a b c h1 h2 => le_trans h2 h1⟩
  have hperm : (List.insertionSort mtimeDesc (dir.filter matchesBackupPattern)).Perm
      (dir.filter matchesBackupPattern) := List.perm_insertionSort mtimeDesc _
  have hlen := hperm.length_eq
  constructor
  · intro hk
    have hcond : (List.insertionSort mtimeDesc (dir.filter matchesBackupPattern)).length > keep := by
      rw [hlen]; exact hk
    have hcl : cleanup_old_backups dir keep =
        (List.insertionSort mtimeDesc (dir.filter matchesBackupPattern)).drop keep := by
      unfold cleanup_old_backups
      simp only [if_pos hcond]
    have hsorted : (List.insertionSort mtimeDesc
        (dir.filter matchesBackupPattern)).Pairwise mtimeDesc :=
      List.sorted_insertionSort mtimeDesc _
    have hndS : ((List.insertionSort mtimeDesc
        (dir.filter matchesBackupPattern)).map BFile.mtime).Nodup :=
      ((hperm.map BFile.mtime).nodup_iff).mpr hnd
    have hstrict := pairwise_strict_mtime hsorted hndS
    have hnodupS : (List.insertionSort mtimeDesc
        (dir.filter matchesBackupPattern)).Nodup :=
      List.Nodup.of_map BFile.mtime hndS
    have hsplit := List.take_append_drop keep
      (List.insertionSort mtimeDesc (dir.filter matchesBackupPattern))
    have hpermS : ((List.insertionSort mtimeDesc (dir.filter matchesBackupPattern)).take keep ++
        (List.insertionSort mtimeDesc (dir.filter matchesBackupPattern)).drop keep).Perm
          (dir.filter matchesBackupPattern) := by
      rw [hsplit]; exact hperm
    have hstrictS : ((List.insertionSort mtimeDesc (dir.filter matchesBackupPattern)).take keep ++
        (List.insertionSort mtimeDesc (dir.filter matchesBackupPattern)).drop keep).Pairwise
          (fun a b => b.mtime < a.mtime) := by
      rw [hsplit]; exact hstrict
    have hnodupSplit : ((List.insertionSort mtimeDesc (dir.filter matchesBackupPattern)).take keep ++
        (List.insertionSort mtimeDesc (dir.filter matchesBackupPattern)).drop keep).Nodup := by
      rw [hsplit]; exact hnodupS
    obtain ⟨hflen, hcross⟩ := prune_filter_facts hpermS hstrictS hnodupSplit
    rw [hcl]
    refine ⟨?_, ?_, ?_⟩
    · rw [List.length_drop, hlen]
    · rw [hflen, List.length_take]
      exact min_eq_left (le_of_lt hcond)
    · exact hcross
  · intro hk2
    unfold cleanup_old_backups
    have hcond2 : ¬ ((List.insertionSort mtimeDesc
        (dir.filter matchesBackupPattern)).length > keep) := by
      rw [hlen]; omega
    simp only [if_neg hcond2]

/-- Witness for C4: four files, three of which match the pattern with
distinct modification times, pruned with a keep count of one. -/
theorem cleanup_keeps_k_most_recent_witness :
    cleanup_old_backups
      [⟨"mongodb_backup_a.gz", 1⟩, ⟨"mongodb_backup_b.gz", 3⟩,
        ⟨"mongodb_backup_c.gz", 2⟩, ⟨"notes.txt", 9⟩] 1 =
      [⟨"mongodb_backup_c.gz", 2⟩, ⟨"mongodb_backup_a.gz", 1⟩] ∧
    (cleanup_old_backups
      [⟨"mongodb_backup_a.gz", 1⟩, ⟨"mongodb_backup_b.gz", 3⟩,
        ⟨"mongodb_backup_c.gz", 2⟩, ⟨"notes.txt", 9⟩] 1).length =
      ([⟨"mongodb_backup_a.gz", 1⟩, ⟨"mongodb_backup_b.gz", 3⟩,
        ⟨"mongodb_backup_c.gz", 2⟩, (⟨"notes.txt", 9⟩ : BFile)].filter
          matchesBackupPattern).length - 1 :=
  ⟨by decide,
    ((cleanup_keeps_k_most_recent
      [⟨"mongodb_backup_a.gz", 1⟩, ⟨"mongodb_backup_b.gz", 3⟩,
        ⟨"mongodb_backup_c.gz", 2⟩, ⟨"notes.txt", 9⟩] 1 (by decide)).1
      (by decide)).1⟩

theorem canonFields_eq_map (fs : List (String × PyJson)) :
    canonFields fs = fs.map (fun p => (p.1, canonJson p.2)) := by
  induction fs with
  | nil => rfl
  | cons p ps ih =>
    obtain ⟨k, v⟩ := p
    simp [canonFields, ih]

theorem sortFields_eq_of_perm {l1 l2 : List (String × PyJson)} (hp : l1.Perm l2)
    (hnd : (l1.map Prod.fst).Nodup) : sortFields l1 = sortFields l2 := by
  haveI hTot : IsTotal (String × PyJson) keyOrder :=
    ⟨fun a b => charsLE_total a.1.data b.1.data⟩
  haveI hTr : IsTrans (String × PyJson) keyOrder :=
    ⟨fun a b c => charsLE_trans a.1.data b.1.data c.1.data⟩
  haveI hAnti : IsAntisymm (String × PyJson)
      (fun a b => keyOrder a b ∧ a.1 ≠ b.1) := by
    refine ⟨fun a b h1 h2 => absurd ?_ h1.2⟩
    have hd := charsLE_antisymm a.1.data b.1.data h1.1 h2.1
    exact congrArg String.mk hd
  have hs1 : (sortFields l1).Pairwise keyOrder :=
    List.sorted_insertionSort keyOrder l1
  have hs2 : (sortFields l2).Pairwise keyOrder :=
    List.sorted_insertionSort keyOrder l2
  have hperm12 : (sortFields l1).Perm (sortFields l2) :=
    (List.perm_insertionSort keyOrder l1).trans
      (hp.trans (List.perm_insertionSort keyOrder l2).symm)
  have hnd1 : ((sortFields l1).map Prod.fst).Nodup :=
    (((List.perm_insertionSort keyOrder l1).map Prod.fst).nodup_iff).mpr hnd
  have hnd2 : ((sortFields l2).map Prod.fst).Nodup :=
    ((hperm12.map Prod.fst).nodup_iff).mp hnd1
  have hne1 : (sortFields l1).Pairwise (fun a b => a.1 ≠ b.1) :=
    List.pairwise_map.mp hnd1
  have hne2 : (sortFields l2).Pairwise (fun a b => a.1 ≠ b.1) :=
    List.pairwise_map.mp hnd2
  exact List.eq_of_perm_of_sorted hperm12 (hs1.and hne1) (hs2.and hne2)

theorem canonJson_obj_perm {fs1 fs2 : List (String × PyJson)} (hp : fs1.Perm fs2)
    (hnd : (fs1.map Prod.fst).Nodup) :
    canonJson (PyJson.obj fs1) = canonJson (PyJson.obj fs2) := by
  have heq : sortFields (canonFields fs1) = sortFields (canonFields fs2) := by
    rw [canonFields_eq_map, canonFields_eq_map]
    apply sortFields_eq_of_perm (hp.map _)
    rw [List.map_map]
    have hcomp : Prod.fst ∘ (fun p : String × PyJson => (p.1, canonJson p.2)) =
        Prod.fst := by
      funext p; rfl
    rw [hcomp]
    exact hnd
  simp only [canonJson, heq]

theorem normalize_json_obj_perm {fs1 fs2 : List (String × PyJson)}
    (hp : fs1.Perm fs2) (hnd : (fs1.map Prod.fst).Nodup) :
    normalize_json (PyJson.obj fs1) = normalize_json (PyJson.obj fs2) := by
  unfold normalize_json
  exact congrArg renderJson (canonJson_obj_perm hp hnd)

theorem normalize_json_obj_ne_empty (fs : List (String × PyJson)) :
    normalize_json (PyJson.obj fs) ≠ "" := by
  apply string_length_pos_ne_empty
  show 0 < (renderJson (canonJson (PyJson.obj fs))).length
  simp only [canonJson, renderJson]
  have h1 : ("\x7b" : String).length = 1 := rfl
  rw [String.length_append, String.length_append, h1]
  omega

theorem jsonFieldsEq_keys : ∀ {fs gs : List (String × PyJson)},
    JsonFieldsEq fs gs → fs.map Prod.fst = gs.map Prod.fst
  | _, _, JsonFieldsEq.nil => rfl
  | _, _, JsonFieldsEq.cons hv hfs => by
      simp only [List.map_cons]
      rw [jsonFieldsEq_keys hfs]

mutual

theorem canonJson_eq_of_jsonEq : ∀ {a b : PyJson},
    JsonEqUpToKeyOrder a b → canonJson a = canonJson b
  | _, _, JsonEqUpToKeyOrder.null => rfl
  | _, _, JsonEqUpToKeyOrder.bool b => rfl
  | _, _, JsonEqUpToKeyOrder.num n => rfl
  | _, _, JsonEqUpToKeyOrder.str s => rfl
  | _, _, @JsonEqUpToKeyOrder.arr xs ys h => by
      simp only [canonJson]
      rw [canonArr_eq_of_listEq h]
  | _, _, @JsonEqUpToKeyOrder.obj fs gs hs hnd hfe hperm => by
      simp only [canonJson]
      have h1 : canonFields fs = canonFields gs := canonFields_eq_of_fieldsEq hfe
      have hkeys : fs.map Prod.fst = gs.map Prod.fst := jsonFieldsEq_keys hfe
      have h2 : sortFields (canonFields gs) = sortFields (canonFields hs) := by
        apply sortFields_eq_of_perm
        · rw [canonFields_eq_map, canonFields_eq_map]
          exact hperm.map _
        · rw [canonFields_eq_map, List.map_map]
          have hcomp : Prod.fst ∘ (fun p : String × PyJson => (p.1, canonJson p.2)) =
              Prod.fst := by
            funext p; rfl
          rw [hcomp, ← hkeys]
          exact hnd
      rw [h1, h2]

theorem canonArr_eq_of_listEq : ∀ {xs ys : List PyJson},
    JsonListEq xs ys → canonArr xs = canonArr ys
  | _, _, JsonListEq.nil => rfl
  | _, _, JsonListEq.cons hx hxs => by
      simp only [canonArr]
      rw [canonJson_eq_of_jsonEq hx, canonArr_eq_of_listEq hxs]

theorem canonFields_eq_of_fieldsEq : ∀ {fs gs : List (String × PyJson)},
    JsonFieldsEq fs gs → canonFields fs = canonFields gs
  | _, _, JsonFieldsEq.nil => rfl
  | _, _, JsonFieldsEq.cons hv hfs => by
      simp only [canonFields]
      rw [canonJson_eq_of_jsonEq hv, canonFields_eq_of_fieldsEq hfs]

end

/-- C5: Change-detection idempotence: two object payloads that are equal as
JSON values regardless of object key order (recursively: a permutation of
the same distinct-key field lists with equal values up to the same relation)
normalize to the same text, and a second poll against the snapshot persisted
from the first takes the no-op branch: no snapshot rewrite and no alert. -/
theorem pose_second_poll_noop (diff : String → String → String) (name : String)
    {fs1 fs2 : List (String × PyJson)}
    (hp : JsonEqUpToKeyOrder (PyJson.obj fs1) (PyJson.obj fs2)) :
    normalize_json (PyJson.obj fs1) = normalize_json (PyJson.obj fs2) ∧
    check_pose_step diff name (some (normalize_json (PyJson.obj fs1)))
        (PyJson.obj fs2) =
      { snapshot := normalize_json (PyJson.obj fs1), wroteSnapshot := false,
        notice := PoseNotice.none } := by
  have hn : normalize_json (PyJson.obj fs1) = normalize_json (PyJson.obj fs2) := by
    unfold normalize_json
    exact congrArg renderJson (canonJson_eq_of_jsonEq hp)
  have hne := normalize_json_obj_ne_empty fs1
  refine ⟨hn, ?_⟩
  simp only [check_pose_step, load_text_if_exists]
  rw [← hn, if_neg hne, if_pos rfl]

/-- Witness for C5: the object written with fields in the order b, a against
a second poll carrying the same fields in the order a, b. -/
theorem pose_second_poll_noop_witness :
    normalize_json (PyJson.obj [("b", PyJson.num 2), ("a", PyJson.num 1)]) =
      normalize_json (PyJson.obj [("a", PyJson.num 1), ("b", PyJson.num 2)]) ∧
    check_pose_step (fun a b => a ++ b) ("pose_poses")
        (some (normalize_json (PyJson.obj [("b", PyJson.num 2), ("a", PyJson.num 1)])))
        (PyJson.obj [("a", PyJson.num 1), ("b", PyJson.num 2)]) =
      { snapshot := normalize_json (PyJson.obj [("b", PyJson.num 2), ("a", PyJson.num 1)]),
        wroteSnapshot := false, notice := PoseNotice.none } :=
  pose_second_poll_noop (fun a b => a ++ b) ("pose_poses")
    (JsonEqUpToKeyOrder.obj (by decide)
      (JsonFieldsEq.cons (JsonEqUpToKeyOrder.num 2)
        (JsonFieldsEq.cons (JsonEqUpToKeyOrder.num 1) JsonFieldsEq.nil))
      (List.Perm.swap ("a", PyJson.num 1) ("b", PyJson.num 2) []))

/-- C6: Change-detection dispatch by diff size: when the stored snapshot is
present and differs from the normalized payload, the snapshot is overwritten
with the new normalized text and the unified diff between previous and
current is dispatched — inline as a code block when its text has at most
3500 characters, otherwise as a file attachment carrying the full diff with
the same header as caption; the header names the endpoint. -/
theorem pose_change_dispatch (diff : String → String → String) (name : String)
    (stored : Option String) (payload : PyJson)
    (h1 : load_text_if_exists stored ≠ "")
    (h2 : load_text_if_exists stored ≠ normalize_json payload) :
    (check_pose_step diff name stored payload).snapshot = normalize_json payload ∧
    (check_pose_step diff name stored payload).wroteSnapshot = true ∧
    ((diff (load_text_if_exists stored) (normalize_json payload)).length ≤ 3500 →
      (check_pose_step diff name stored payload).notice =
        PoseNotice.inline (poseHeader name ++ "\n\n```\n" ++
          diff (load_text_if_exists stored) (normalize_json payload) ++ "\n```")) ∧
    (3500 < (diff (load_text_if_exists stored) (normalize_json payload)).length →
      (check_pose_step diff name stored payload).notice =
        PoseNotice.fileAttach (diff (load_text_if_exists stored) (normalize_json payload))
          (poseHeader name)) ∧
    (∃ rest, poseHeader name = "🔄 **Зміни в " ++ (name ++ rest)) := by
  have hstep : check_pose_step diff name stored payload =
      (if (diff (load_text_if_exists stored) (normalize_json payload)).length > 3500 then
        { snapshot := normalize_json payload, wroteSnapshot := true,
          notice := PoseNotice.fileAttach
            (diff (load_text_if_exists stored) (normalize_json payload))
            (poseHeader name) }
      else
        { snapshot := normalize_json payload, wroteSnapshot := true,
          notice := PoseNotice.inline (poseHeader name ++ "\n\n```\n" ++
            diff (load_text_if_exists stored) (normalize_json payload) ++ "\n```") }) := by
    simp only [check_pose_step]
    rw [if_neg h1, if_neg h2]
  refine ⟨?_, ?_, fun hle => ?_, fun hgt => ?_,
    ⟨"**\n@Artemka1806 @redditmarketing", ?_⟩⟩
  · rw [hstep]; split <;> rfl
  · rw [hstep]; split <;> rfl
  · rw [hstep, if_neg (Nat.not_lt.mpr hle)]
  · rw [hstep, if_pos hgt]
  · simp only [poseHeader, String.append_assoc]

/-- Witness for C6: a present snapshot differing from the normalized payload,
with a short diff, dispatched inline. -/
theorem pose_change_dispatch_witness :
    (check_pose_step (fun _ b => b) ("video_all_poses") (some ("x")) PyJson.null).snapshot =
      normalize_json PyJson.null ∧
    (check_pose_step (fun _ b => b) ("video_all_poses") (some ("x")) PyJson.null).wroteSnapshot =
      true ∧
    (((fun _ b => b) (load_text_if_exists (some ("x"))) (normalize_json PyJson.null)).length ≤ 3500 →
      (check_pose_step (fun _ b => b) ("video_all_poses") (some ("x")) PyJson.null).notice =
        PoseNotice.inline (poseHeader ("video_all_poses") ++ "\n\n```\n" ++
          (fun _ b => b) (load_text_if_exists (some ("x"))) (normalize_json PyJson.null) ++
          "\n```")) ∧
    (3500 < ((fun _ b => b) (load_text_if_exists (some ("x"))) (normalize_json PyJson.null)).length →
      (check_pose_step (fun _ b => b) ("video_all_poses") (some ("x")) PyJson.null).notice =
        PoseNotice.fileAttach
          ((fun _ b => b) (load_text_if_exists (some ("x"))) (normalize_json PyJson.null))
          (poseHeader ("video_all_poses"))) ∧
    (∃ rest, poseHeader ("video_all_poses") =
      "🔄 **Зміни в " ++ ("video_all_poses" ++ rest)) :=
  pose_change_dispatch (fun _ b => b) ("video_all_poses") (some ("x")) PyJson.null
    (by decide) (by decide)

/-- C3 counterexample: a non-rate-limit transport fault during a
change-detection alert is not caught — with one endpoint whose payload
differs from its stored snapshot and whose inline alert send faults, the
fault propagates out of `check_pose_endpoints` and aborts the job. -/
theorem pose_alert_fault_propagates :
    check_pose_endpoints (fun a b => a ++ b)
      [⟨"video_all_poses", Except.ok (200, PyJson.str ("a")), some ("old"),
        TransportResp.err ("boom"), []⟩] =
      some (Except.error ("boom")) := rfl

/-- C3 (amended): a non-rate-limit transport fault is caught, logged and
swallowed for the backup failure message (`send_failure_notification`), for
the backup success upload (`send_to_telegram`) and for the health alert
(`process_bot`), so it never propagates out of those jobs; the
change-detection alerts of `check_pose_endpoints` are the exception — a
transport fault there propagates out of the pose job. -/
theorem notification_faults_swallowed (t : TransportResp) (reason : String)
    (details : Option String) (resps : List TransportResp) (s : List Nat)
    (e : String) (inv : List String) (item : BotItem) (token m : String)
    (a : TransportResp) :
    (∀ e2, send_failure_notification t reason details ≠ Except.error e2) ∧
    (send_document_with_flood_wait resps = some (s, Except.error e) →
      send_to_telegram resps = some (some e)) ∧
    (item.bot_token = some token → token ≠ "" →
      ("bot" ++ item.bot_number.getD ("unknown")) ∈ inv →
      send_message_attempt a = Except.error m →
      process_bot inv item (Except.ok 401) a =
        BotAction.alerted (botAlertMessage (item.bot_username.getD ("unknown"))
          (item.bot_number.getD ("unknown"))) (some m)) := by
  refine ⟨?_, ?_, ?_⟩
  · intro e2
    unfold send_failure_notification
    split <;> simp
  · intro h
    unfold send_to_telegram
    rw [h]
  · intro htok hne hmem hsend
    simp only [process_bot, htok]
    rw [if_neg hne, if_neg (fun hn => hn hmem)]
    simp [hsend]

/-- Witness for the amended C3: a fault swallowed by the upload wrapper and a
fault swallowed by the health-alert send. -/
theorem notification_faults_swallowed_witness :
    send_to_telegram [TransportResp.err ("y")] = some (some ("y")) ∧
    process_bot ["bot1"] ⟨some ("tk"), some ("u"), some ("1")⟩ (Except.ok 401)
        (TransportResp.err ("boom")) =
      BotAction.alerted (botAlertMessage ("u") ("1")) (some ("boom")) := by
  have h := notification_faults_swallowed (TransportResp.err ("x")) ("r") none
    [TransportResp.err ("y")] [] ("y") ["bot1"]
    ⟨some ("tk"), some ("u"), some ("1")⟩ ("tk") ("boom")
    (TransportResp.err ("boom"))
  exact ⟨h.2.1 rfl, h.2.2 rfl (by decide) (by decide) rfl⟩

/-- C8: Health-check status classification for a bot with a usable token:
when its derived container name is in the inventory, identity-check status
200 yields no action, status 401 yields exactly one alert whose message names
the username and the number, and any other status yields a warning and no
alert; when the container name is absent from the inventory the bot is never
queried — the result does not depend on the identity-check answer at all. -/
theorem bot_status_classification (inv : List String) (item : BotItem)
    (token : String) (a : TransportResp)
    (htok : item.bot_token = some token) (hne : token ≠ "") :
    (("bot" ++ item.bot_number.getD ("unknown")) ∈ inv →
      process_bot inv item (Except.ok 200) a = BotAction.healthy) ∧
    (("bot" ++ item.bot_number.getD ("unknown")) ∈ inv →
      ∃ se, process_bot inv item (Except.ok 401) a =
        BotAction.alerted (botAlertMessage (item.bot_username.getD ("unknown"))
          (item.bot_number.getD ("unknown"))) se) ∧
    (∃ x y, botAlertMessage (item.bot_username.getD ("unknown"))
        (item.bot_number.getD ("unknown")) =
      x ++ (item.bot_username.getD ("unknown") ++ y)) ∧
    (∃ x y, botAlertMessage (item.bot_username.getD ("unknown"))
        (item.bot_number.getD ("unknown")) =
      x ++ (item.bot_number.getD ("unknown") ++ y)) ∧
    (("bot" ++ item.bot_number.getD ("unknown")) ∈ inv →
      ∀ st, st ≠ 200 → st ≠ 401 →
        process_bot inv item (Except.ok st) a = BotAction.warned st) ∧
    (("bot" ++ item.bot_number.getD ("unknown")) ∉ inv →
      ∀ g : Except String Nat,
        process_bot inv item g a = BotAction.skippedNotInInventory) := by
  refine ⟨fun hmem => ?_, fun hmem => ?_, ?_, ?_, fun hmem st h200 h401 => ?_,
    fun hmem g => ?_⟩
  · simp only [process_bot, htok]
    rw [if_neg hne, if_neg (fun hn => hn hmem)]
    simp
  · simp only [process_bot, htok]
    rw [if_neg hne, if_neg (fun hn => hn hmem)]
    cases h : send_message_attempt a with
    | ok u =>
        refine ⟨none, ?_⟩
        simp [h]
    | error e2 =>
        refine ⟨some e2, ?_⟩
        simp [h]
  · refine ⟨"🚫 **Бот в бані або токен недійсний**\n\n" ++ "**bot_username:** @",
      "\n" ++ ("**bot_number:** " ++ (item.bot_number.getD ("unknown") ++
        ("\n" ++ "@Artemka1806 @redditmarketing"))), ?_⟩
    simp only [botAlertMessage, String.append_assoc]
  · refine ⟨"🚫 **Бот в бані або токен недійсний**\n\n" ++ ("**bot_username:** @" ++
      (item.bot_username.getD ("unknown") ++ ("\n" ++ "**bot_number:** "))),
      "\n" ++ "@Artemka1806 @redditmarketing", ?_⟩
    simp only [botAlertMessage, String.append_assoc]
  · simp only [process_bot, htok]
    rw [if_neg hne, if_neg (fun hn => hn hmem)]
    simp [h200, h401]
  · simp only [process_bot, htok]
    rw [if_neg hne, if_pos hmem]

/-- Witness for C8 at a concrete bot and inventory. -/
theorem bot_status_classification_witness :
    process_bot ["bot1"] ⟨some ("tk"), some ("mybot"), some ("1")⟩
        (Except.ok 401) TransportResp.ok =
      BotAction.alerted (botAlertMessage ("mybot") ("1")) none ∧
    process_bot ["bot1"] ⟨some ("tk"), some ("mybot"), some ("1")⟩
        (Except.ok 200) TransportResp.ok = BotAction.healthy ∧
    process_bot ["bot1"] ⟨some ("tk"), some ("mybot"), some ("1")⟩
        (Except.ok 500) TransportResp.ok = BotAction.warned 500 ∧
    process_bot ["bot7"] ⟨some ("tk"), some ("mybot"), some ("1")⟩
        (Except.ok 401) TransportResp.ok = BotAction.skippedNotInInventory := by
  have h := bot_status_classification ["bot1"]
    ⟨some ("tk"), some ("mybot"), some ("1")⟩ ("tk") TransportResp.ok rfl (by decide)
  have h7 := bot_status_classification ["bot7"]
    ⟨some ("tk"), some ("mybot"), some ("1")⟩ ("tk") TransportResp.ok rfl (by decide)
  refine ⟨by decide, h.1 (by decide), ?_, ?_⟩
  · exact h.2.2.2.2.1 (by decide) 500 (by decide) (by decide)
  · exact h7.2.2.2.2.2 (by decide) (Except.ok 401)
